import Mathlib

/-!
# Webhook dispatcher: a shallow embedding

This file embeds the core of the webhook delivery engine
(ingestion route, job store operations, dispatch queue, recovery
reconciler, worker delivery loop, status routes) as executable Lean
definitions, and proves or refutes the specified properties about them.

Sources embedded:
- eventsRoute.js : POST /events handler, GET /status/:jobId, GET /status/all
- queue.js       : queue configuration (attempts, exponential backoff)
- recovery.js    : recoverPendingJobs
- worker.js      : delivery loop, markDelivered / markFailed updates
- db.js          : webhook_jobs table shape (defaults: status pending,
  attempt_count 0, unique idempotency_key)

External collaborators (PostgreSQL, BullMQ, Express, axios) are modelled
at the granularity of their documented behaviour as used by the code:
the store is a list of rows with a uniqueness check on idempotency_key
(ON CONFLICT DO NOTHING), the queue is a list of work items where adding
with an explicit BullMQ job id is a no-op when that id is already present
and adding without one assigns a fresh automatic id, Express dispatches
to routes in registration order, and a non-integer id parameter makes the
integer-column query raise (caught as a 500).
-/

/-- A JavaScript request-body value as far as the route inspects it:
a string or a number. Truthiness follows JavaScript: empty string and
zero are falsy. -/
inductive JsValue where
  | str : String → JsValue
  | num : Int → JsValue
deriving DecidableEq, Repr

/-- JavaScript truthiness of a value (empty string and 0 are falsy). -/
def JsValue.truthy : JsValue → Bool
  | .str s => !(s = "")
  | .num n => !(n = 0)

/-- Template-literal interpolation of a value into a string. -/
def JsValue.toText : JsValue → String
  | .str s => s
  | .num n => toString n

/-- The payload object built by the route:
payload = merchantId, amount, currency, transactionId (eventsRoute.js). -/
structure Payload where
  merchantId : JsValue
  amount : JsValue
  currency : JsValue
  transactionId : JsValue
deriving DecidableEq, Repr

/-- The JSON request body of POST /events: each field may be absent. -/
structure RequestBody where
  merchantId : Option JsValue
  amount : Option JsValue
  currency : Option JsValue
  transactionId : Option JsValue
deriving DecidableEq, Repr

/-- The route's field validation:
if any of merchantId, amount, currency, transactionId is absent or falsy
the request is rejected (eventsRoute.js lines 25-31); otherwise the
payload object is formed from the four fields. -/
def requiredFields (b : RequestBody) : Option Payload :=
  match b.merchantId, b.amount, b.currency, b.transactionId with
  | some m, some a, some c, some t =>
      if m.truthy && a.truthy && c.truthy && t.truthy then
        some { merchantId := m, amount := a, currency := c, transactionId := t }
      else none
  | _, _, _, _ => none

/-- Job status column values used by the system. -/
inductive JobStatus where
  | pending
  | delivered
  | failed
deriving DecidableEq, Repr

/-- A row of the webhook_jobs table (db.js). -/
structure Job where
  id : Nat
  merchantId : JsValue
  payload : Payload
  targetUrl : String
  status : JobStatus
  idempotencyKey : String
  attemptCount : Nat
  lastError : Option String
  createdAt : Nat
  updatedAt : Nat
deriving DecidableEq, Repr

/-- The job store: rows in insertion order (created_at ascending) plus the
next SERIAL id. -/
structure Store where
  rows : List Job
  nextId : Nat
deriving DecidableEq, Repr

/-- INSERT INTO webhook_jobs ... ON CONFLICT (idempotency_key) DO NOTHING
RETURNING id (eventsRoute.js lines 38-44): if a row with the key exists,
no row is inserted and no id is returned; otherwise a fresh row with
status pending and attempt_count 0 is appended. -/
def insertJob (st : Store) (p : Payload) (targetUrl key : String) (now : Nat) :
    Option (Nat × Store) :=
  if st.rows.any (fun j => j.idempotencyKey = key) then none
  else
    some (st.nextId,
      { rows := st.rows ++
          [{ id := st.nextId, merchantId := p.merchantId, payload := p,
             targetUrl := targetUrl, status := JobStatus.pending,
             idempotencyKey := key, attemptCount := 0, lastError := none,
             createdAt := now, updatedAt := now }],
        nextId := st.nextId + 1 })

/-- UPDATE webhook_jobs SET status = 'delivered', attempt_count = $1,
updated_at = NOW() WHERE id = $2 (worker.js success handler). -/
def markDelivered (st : Store) (jobId attemptNumber now : Nat) : Store :=
  { st with rows := st.rows.map (fun j =>
      if j.id = jobId then
        { j with status := JobStatus.delivered, attemptCount := attemptNumber,
                 updatedAt := now }
      else j) }

/-- UPDATE webhook_jobs SET status = 'failed', attempt_count = $1,
last_error = $2, updated_at = NOW() WHERE id = $3 (worker.js failed handler). -/
def markFailed (st : Store) (jobId attemptsMade : Nat) (errMsg : String)
    (now : Nat) : Store :=
  { st with rows := st.rows.map (fun j =>
      if j.id = jobId then
        { j with status := JobStatus.failed, attemptCount := attemptsMade,
                 lastError := some errMsg, updatedAt := now }
      else j) }

/-- A BullMQ work item: its queue-level job id (automatic counter value or
an explicitly supplied id) and the data passed to queue.add:
jobId, payload, targetUrl. -/
structure WorkItem where
  queueId : String
  jobId : Nat
  payload : Payload
  targetUrl : String
deriving DecidableEq, Repr

/-- The dispatch queue: work items plus BullMQ's automatic id counter. -/
structure Queue where
  items : List WorkItem
  nextAutoId : Nat
deriving DecidableEq, Repr

/-- Whether an item with the given queue-level job id is present. -/
def Queue.hasQueueId (q : Queue) (k : String) : Bool :=
  q.items.any (fun i => i.queueId = k)

/-- queue.add without an explicit job id (eventsRoute.js line 57): BullMQ
assigns the next automatic id and always admits the item. -/
def Queue.addAuto (q : Queue) (jobId : Nat) (p : Payload) (url : String) : Queue :=
  { items := q.items ++
      [{ queueId := toString q.nextAutoId, jobId := jobId, payload := p,
         targetUrl := url }],
    nextAutoId := q.nextAutoId + 1 }

/-- queue.add with an explicit job id (recovery.js): BullMQ deduplicates on
the queue-level job id, so the add is a no-op when that id already exists. -/
def Queue.addWithId (q : Queue) (k : String) (jobId : Nat) (p : Payload)
    (url : String) : Queue :=
  if q.hasQueueId k then q
  else { q with items := q.items ++
      [{ queueId := k, jobId := jobId, payload := p, targetUrl := url }] }

/-- The body of the re-enqueue loop of recoverPendingJobs: one pending row
is re-added to the queue under the explicit id recovery-jobId. -/
def recoverStep (q : Queue) (j : Job) : Queue :=
  q.addWithId ("recovery-" ++ toString j.id) j.id j.payload j.targetUrl

/-- recoverPendingJobs (recovery.js): scan rows with status pending in
created_at order and re-add each to the queue under the explicit id
recovery-jobId. -/
def recoverPendingJobs (st : Store) (q : Queue) : Queue :=
  (st.rows.filter (fun j => j.status = JobStatus.pending)).foldl recoverStep q

/-- The queue configuration (queue.js defaultJobOptions). -/
structure QueueOpts where
  attempts : Nat
  backoffType : String
  backoffDelayMs : Nat
  removeOnComplete : Bool
  removeOnFail : Bool
deriving DecidableEq, Repr

/-- getWebhookQueue configuration: attempts 8, exponential backoff with
base delay 2000 ms (queue.js lines 26-42). -/
def webhookQueueOpts : QueueOpts :=
  { attempts := 8, backoffType := "exponential", backoffDelayMs := 2000,
    removeOnComplete := false, removeOnFail := false }

/-- BullMQ exponential backoff applied to the configured base: the delay
scheduled after a failure when attemptsMade attempts have been made, i.e.
before attempt attemptsMade + 1, is delay * 2 ^ (attemptsMade - 1). -/
def retryDelayMs (attemptsMade : Nat) : Nat :=
  webhookQueueOpts.backoffDelayMs * 2 ^ (attemptsMade - 1)

/-- The delay before the n-th attempt of a work item: attempt 1 runs
immediately; attempt n for n at least 2 runs after the backoff delay
computed from the n - 1 attempts already made. -/
def delayBeforeAttempt (n : Nat) : Nat :=
  if n ≤ 1 then 0 else retryDelayMs (n - 1)

/-- Response of the POST /events route: HTTP status plus the jobId field of
the JSON body when one is returned. -/
structure EventResponse where
  status : Nat
  jobId : Option Nat
deriving DecidableEq, Repr

/-- Combined system state threaded through the ingestion route. -/
structure SysState where
  store : Store
  queue : Queue
deriving DecidableEq, Repr

/-- POST /events (eventsRoute.js): 503 when the database is not ready;
400 when a required field is absent or falsy; 500 when the insert query
itself fails; 409 when the idempotency key txn-transactionId already has
a row; otherwise the row is inserted, the enqueue is attempted, an
enqueue failure is caught and only logged, and 202 with the job id is
returned either way. -/
def postEvents (dbReady insertOk queueUp : Bool) (targetUrl : String)
    (body : RequestBody) (now : Nat) (st : SysState) :
    EventResponse × SysState :=
  if dbReady = false then ({ status := 503, jobId := none }, st)
  else
    match requiredFields body with
    | none => ({ status := 400, jobId := none }, st)
    | some p =>
      if insertOk = false then ({ status := 500, jobId := none }, st)
      else
        match insertJob st.store p targetUrl
            ("txn-" ++ p.transactionId.toText) now with
        | none => ({ status := 409, jobId := none }, st)
        | some (jobId, store1) =>
          let queue1 :=
            if queueUp then st.queue.addAuto jobId p targetUrl else st.queue
          ({ status := 202, jobId := some jobId },
           { store := store1, queue := queue1 })

/-- An outbound HTTP POST performed by the worker for one delivery attempt
(worker.js): the target url, the payload from the work item data, the
X-Attempt-Number header value and the X-Idempotency-Key header value. -/
structure OutboundRequest where
  url : String
  payload : Payload
  attemptNumber : Nat
  idempotencyHeader : String
deriving DecidableEq, Repr

/-- The request the worker issues on attempt n for a work item. -/
def mkReq (item : WorkItem) (n : Nat) : OutboundRequest :=
  { url := item.targetUrl, payload := item.payload, attemptNumber := n,
    idempotencyHeader := "job-" ++ toString item.jobId }

/-- The BullMQ retry loop around the worker handler for one work item:
with fuel remaining attempts and made attempts already made, attempt
made + 1 is issued; on receiver success the store row is marked delivered
with that attempt number; on failure the item is rescheduled until the
attempts are exhausted, at which point the failed handler marks the store
row failed with the total attempts made and the captured error. Returns
the outbound requests issued and the resulting store. -/
def attemptLoop (receiver : Nat → Bool) (item : WorkItem) (errMsg : String)
    (now : Nat) : Nat → Nat → Store → List OutboundRequest × Store
  | 0, made, st => ([], markFailed st item.jobId made errMsg now)
  | fuel + 1, made, st =>
    if receiver (made + 1) then
      ([mkReq item (made + 1)], markDelivered st item.jobId (made + 1) now)
    else
      let rest := attemptLoop receiver item errMsg now fuel (made + 1) st
      (mkReq item (made + 1) :: rest.1, rest.2)

/-- Full processing of one work item under the configured maximum attempt
count (queue.js attempts: 8). -/
def deliverJob (receiver : Nat → Bool) (item : WorkItem) (st : Store)
    (errMsg : String) (now : Nat) : List OutboundRequest × Store :=
  attemptLoop receiver item errMsg now webhookQueueOpts.attempts 0 st

/-- One row of the GROUP BY status projection of GET /status/all:
COUNT(*), AVG(attempt_count), MAX(attempt_count). -/
structure SummaryRow where
  status : JobStatus
  count : Nat
  avgAttempts : ℚ
  maxAttempts : Nat
deriving DecidableEq, Repr

/-- Result of dispatching a GET request (status routes of eventsRoute.js). -/
inductive GetResult where
  | jobRow : Job → GetResult
  | jobNotFound : GetResult
  | queryError : GetResult
  | summary : List SummaryRow → GetResult
  | noRoute : GetResult
deriving DecidableEq, Repr

/-- The distinct statuses present, in order of first appearance. -/
def distinctStatuses (rows : List Job) : List JobStatus :=
  rows.foldl (fun acc j => if acc.contains j.status then acc else acc ++ [j.status]) []

/-- The SELECT status, COUNT(*), AVG(attempt_count), MAX(attempt_count)
FROM webhook_jobs GROUP BY status query of GET /status/all. -/
def statusSummary (st : Store) : List SummaryRow :=
  (distinctStatuses st.rows).map (fun s =>
    let g := st.rows.filter (fun j => j.status = s)
    { status := s, count := g.length,
      avgAttempts := ((g.map Job.attemptCount).sum : ℚ) / (g.length : ℚ),
      maxAttempts := (g.map Job.attemptCount).foldl max 0 })

/-- The Express route pattern /status/:jobId matches any two-segment path
whose first segment is the literal status; the parameter captures the
second segment. -/
def matchStatusJobId (segs : List String) : Option String :=
  match segs with
  | ["status", p] => some p
  | _ => none

/-- Postgres integer input parsing of a text parameter bound to the integer
id column: a nonempty string of decimal digits; anything else raises
invalid input syntax for type integer. -/
def parsePgInt (s : String) : Option Nat :=
  let cs := s.toList
  if cs ≠ [] ∧ cs.all Char.isDigit then
    some (cs.foldl (fun n c => n * 10 + (c.toNat - 48)) 0)
  else none

/-- GET /status/:jobId handler: SELECT ... FROM webhook_jobs WHERE id = $1.
The id column is an integer, so a parameter that does not parse as an
integer makes the query raise, which the catch turns into a 500 response;
an integer parameter with no row is a 404; otherwise the row is returned. -/
def statusJobIdHandler (st : Store) (jobIdParam : String) : GetResult :=
  match parsePgInt jobIdParam with
  | none => GetResult.queryError
  | some i =>
    match st.rows.find? (fun j => j.id = i) with
    | some j => GetResult.jobRow j
    | none => GetResult.jobNotFound

/-- GET /status/all handler body: the grouped summary query. -/
def statusAllHandler (st : Store) : GetResult :=
  GetResult.summary (statusSummary st)

/-- Express dispatch of a GET request over the status routes, in
registration order (eventsRoute.js registers /status/:jobId before
/status/all). Dispatching has no effect on the store: the handlers only
read, so only a result is produced. -/
def handleGet (st : Store) (segs : List String) : GetResult :=
  match matchStatusJobId segs with
  | some p => statusJobIdHandler st p
  | none =>
    if segs = ["status", "all"] then statusAllHandler st else GetResult.noRoute

/-- The sample submission body of the README walkthrough (all four fields
present and truthy). -/
def demoBody : RequestBody :=
  { merchantId := some (JsValue.str "m1"), amount := some (JsValue.num 100),
    currency := some (JsValue.str "USD"),
    transactionId := some (JsValue.str "t1") }

/-- The payload the route builds from demoBody. -/
def demoPayload : Payload :=
  { merchantId := JsValue.str "m1", amount := JsValue.num 100,
    currency := JsValue.str "USD", transactionId := JsValue.str "t1" }

/-- Fresh system state: empty table, SERIAL counter at 1, empty queue. -/
def sysState0 : SysState :=
  { store := { rows := [], nextId := 1 },
    queue := { items := [], nextAutoId := 1 } }

/-- State after submitting demoBody once: job 1 pending in the store and
one automatically-keyed work item in the queue. -/
def sysState1 : SysState := (postEvents true true true "u" demoBody 0 sysState0).2

/-- State after a reconciler run while job 1 is still pending and its
original work item is still in the queue (a merely slow item). -/
def sysState2 : SysState :=
  { sysState1 with queue := recoverPendingJobs sysState1.store sysState1.queue }

/-- The original work item enqueued by the submission path. -/
def item1 : WorkItem :=
  { queueId := "1", jobId := 1, payload := demoPayload, targetUrl := "u" }

/-- The work item added by the reconciler for job 1. -/
def itemR : WorkItem :=
  { queueId := "recovery-1", jobId := 1, payload := demoPayload,
    targetUrl := "u" }

/-- Store after the original work item exhausts all its attempts against a
receiver that never succeeds: job 1 is marked failed. -/
def storeFailed : Store :=
  (deliverJob (fun _ => false) item1 sysState2.store "connect ECONNREFUSED" 5).2

/-- Store after the recovery work item is then processed against a receiver
that succeeds at once: job 1 is overwritten to delivered. -/
def storeFinal : Store :=
  (deliverJob (fun _ => true) itemR storeFailed "connect ECONNREFUSED" 9).2

/-- A store with a few settled jobs, for the status routes. -/
def demoStore : Store :=
  { rows :=
      [{ id := 1, merchantId := JsValue.str "m1", payload := demoPayload,
         targetUrl := "u", status := JobStatus.delivered,
         idempotencyKey := "txn-t1", attemptCount := 3, lastError := none,
         createdAt := 0, updatedAt := 3 },
       { id := 2, merchantId := JsValue.str "m2", payload := demoPayload,
         targetUrl := "u", status := JobStatus.delivered,
         idempotencyKey := "txn-t2", attemptCount := 1, lastError := none,
         createdAt := 1, updatedAt := 4 },
       { id := 3, merchantId := JsValue.str "m3", payload := demoPayload,
         targetUrl := "u", status := JobStatus.pending,
         idempotencyKey := "txn-t3", attemptCount := 0, lastError := none,
         createdAt := 2, updatedAt := 2 }],
    nextId := 4 }


/-- The row the ingestion insert appends for a fresh idempotency key. -/
def newJobRow (st : Store) (p : Payload) (url : String) (now : Nat) : Job :=
  { id := st.nextId, merchantId := p.merchantId, payload := p,
    targetUrl := url, status := JobStatus.pending,
    idempotencyKey := "txn-" ++ p.transactionId.toText, attemptCount := 0,
    lastError := none, createdAt := now, updatedAt := now }

/-- A submission body whose amount is exactly 0 (a falsy number). -/
def zeroAmountBody : RequestBody :=
  { merchantId := some (JsValue.str "m1"), amount := some (JsValue.num 0),
    currency := some (JsValue.str "INR"),
    transactionId := some (JsValue.str "t9") }

/-- The row the demo submission creates (job 1, status pending). -/
def demoJob : Job :=
  { id := 1, merchantId := JsValue.str "m1", payload := demoPayload,
    targetUrl := "u", status := JobStatus.pending,
    idempotencyKey := "txn-t1", attemptCount := 0, lastError := none,
    createdAt := 0, updatedAt := 0 }

theorem map_update_proj {α β : Type} (l : List α) (f : α → α) (proj : α → β)
    (h : ∀ a, proj (f a) = proj a) : (l.map f).map proj = l.map proj := by
  induction l with
  | nil => rfl
  | cons a t ih => simp [h, ih]

theorem attemptLoop_req_fields (receiver : Nat → Bool) (item : WorkItem)
    (errMsg : String) (now : Nat) :
    ∀ fuel made st, ∀ r ∈ (attemptLoop receiver item errMsg now fuel made st).1,
      r.payload = item.payload ∧ r.url = item.targetUrl := by
  intro fuel
  induction fuel with
  | zero => intro made st r hr; simp [attemptLoop] at hr
  | succ fuel ih =>
    intro made st r hr
    by_cases h : receiver (made + 1) = true
    · simp [attemptLoop, h] at hr
      subst hr
      exact ⟨rfl, rfl⟩
    · simp [attemptLoop, h] at hr
      rcases hr with hr | hr
      · subst hr
        exact ⟨rfl, rfl⟩
      · exact ih (made + 1) st r hr

theorem attemptLoop_fail_len (receiver : Nat → Bool) (item : WorkItem)
    (errMsg : String) (now : Nat) (hrec : ∀ n, receiver n = false) :
    ∀ fuel made st,
      (attemptLoop receiver item errMsg now fuel made st).1.length = fuel := by
  intro fuel
  induction fuel with
  | zero => intro made st; simp [attemptLoop]
  | succ fuel ih =>
    intro made st
    simp [attemptLoop, hrec (made + 1), ih (made + 1) st]

theorem attemptLoop_fail_store (receiver : Nat → Bool) (item : WorkItem)
    (errMsg : String) (now : Nat) (hrec : ∀ n, receiver n = false) :
    ∀ fuel made st, (attemptLoop receiver item errMsg now fuel made st).2 =
      markFailed st item.jobId (made + fuel) errMsg now := by
  intro fuel
  induction fuel with
  | zero => intro made st; simp [attemptLoop]
  | succ fuel ih =>
    intro made st
    have e1 : made + 1 + fuel = made + (fuel + 1) := by omega
    simp [attemptLoop, hrec (made + 1), ih (made + 1) st, e1]

theorem addWithId_of_has (q : Queue) (k : String) (j : Nat) (p : Payload)
    (u : String) (h : q.hasQueueId k = true) : q.addWithId k j p u = q := by
  simp [Queue.addWithId, h]

theorem hasQueueId_iff (q : Queue) (k : String) :
    q.hasQueueId k = true ↔ ∃ x ∈ q.items, x.queueId = k := by
  simp [Queue.hasQueueId, List.any_eq_true]

theorem mem_addWithId (q : Queue) (k : String) (j : Nat) (p : Payload)
    (u : String) (x : WorkItem) (hx : x ∈ q.items) :
    x ∈ (q.addWithId k j p u).items := by
  unfold Queue.addWithId
  split
  · exact hx
  · simp [hx]

theorem hasQueueId_addWithId_self (q : Queue) (k : String) (j : Nat)
    (p : Payload) (u : String) : (q.addWithId k j p u).hasQueueId k = true := by
  by_cases h : q.hasQueueId k = true
  · rw [addWithId_of_has q k j p u h]
    exact h
  · rw [hasQueueId_iff]
    refine ⟨{ queueId := k, jobId := j, payload := p, targetUrl := u }, ?_, rfl⟩
    unfold Queue.addWithId
    rw [if_neg h]
    simp

theorem hasQueueId_addWithId_mono (q : Queue) (k k' : String) (j : Nat)
    (p : Payload) (u : String) (h : q.hasQueueId k = true) :
    (q.addWithId k' j p u).hasQueueId k = true := by
  rw [hasQueueId_iff] at h ⊢
  obtain ⟨x, hx, hk⟩ := h
  exact ⟨x, mem_addWithId q k' j p u x hx, hk⟩

theorem hasQueueId_recoverStep_mono (q : Queue) (k : String) (j : Job)
    (h : q.hasQueueId k = true) : (recoverStep q j).hasQueueId k = true :=
  hasQueueId_addWithId_mono q k _ _ _ _ h

theorem hasQueueId_foldl_mono (l : List Job) :
    ∀ q k, q.hasQueueId k = true →
      (l.foldl recoverStep q).hasQueueId k = true := by
  induction l with
  | nil => intro q k h; simpa using h
  | cons j t ih =>
    intro q k h
    exact ih (recoverStep q j) k (hasQueueId_recoverStep_mono q k j h)

theorem hasQueueId_foldl_all (l : List Job) :
    ∀ q, ∀ j ∈ l, (l.foldl recoverStep q).hasQueueId
      ("recovery-" ++ toString j.id) = true := by
  induction l with
  | nil => intro q j hj; simp at hj
  | cons a t ih =>
    intro q j hj
    rcases List.mem_cons.1 hj with hj | hj
    · subst hj
      have h0 : (recoverStep q j).hasQueueId ("recovery-" ++ toString j.id) = true := by
        unfold recoverStep
        exact hasQueueId_addWithId_self q _ _ _ _
      simpa [List.foldl_cons] using hasQueueId_foldl_mono t (recoverStep q j) _ h0
    · exact ih (recoverStep q a) j hj

theorem foldl_recoverStep_fixed (l : List Job) :
    ∀ q, (∀ j ∈ l, q.hasQueueId ("recovery-" ++ toString j.id) = true) →
      l.foldl recoverStep q = q := by
  induction l with
  | nil => intro q _; rfl
  | cons a t ih =>
    intro q h
    have ha : recoverStep q a = q := by
      unfold recoverStep
      exact addWithId_of_has q _ _ _ _ (h a (List.mem_cons_self a t))
    rw [List.foldl_cons, ha]
    exact ih q (fun j hj => h j (List.mem_cons_of_mem a hj))

/-- C6: for every attempt number n at least 1, the retry delay scheduled
before attempt n + 1 equals base * 2 ^ (n - 1) with base 2000 ms (2 s),
and the delay before attempt n + 1 is at least the delay before
attempt n. -/
theorem backoff_schedule (n : Nat) (h : 1 ≤ n) :
    delayBeforeAttempt (n + 1) = 2000 * 2 ^ (n - 1) ∧
    delayBeforeAttempt n ≤ delayBeforeAttempt (n + 1) := by
  constructor
  · have hn : ¬ (n + 1 ≤ 1) := by omega
    simp [delayBeforeAttempt, hn, retryDelayMs, webhookQueueOpts]
  · match n, h with
    | 1, _ => simp [delayBeforeAttempt, retryDelayMs, webhookQueueOpts]
    | (m + 2), _ =>
      have h1 : ¬ (m + 2 ≤ 1) := by omega
      have h2 : ¬ (m + 2 + 1 ≤ 1) := by omega
      simp only [delayBeforeAttempt, h1, h2, if_false, retryDelayMs,
        webhookQueueOpts]
      have e1 : m + 2 - 1 - 1 = m := by omega
      have e2 : m + 2 + 1 - 1 - 1 = m + 1 := by omega
      rw [e1, e2]
      exact Nat.mul_le_mul_left 2000 (Nat.pow_le_pow_right (by omega) (by omega))

/-- C6 witness: at n = 3 the delay before attempt 4 is 2000 * 2 ^ 2 ms and
is at least the delay before attempt 3. -/
theorem backoff_schedule_witness :
    delayBeforeAttempt 4 = 2000 * 2 ^ 2 ∧
    delayBeforeAttempt 3 ≤ delayBeforeAttempt 4 :=
  backoff_schedule 3 (by decide)

/-- C10: a submission in which any of merchantId, amount, currency or
transactionId is absent or falsy (including an amount of exactly 0 and
empty strings) leaves the store and the queue untouched, and is answered
400 whenever the database-ready guard lets it reach validation. -/
theorem validation_rejects (dbReady insertOk queueUp : Bool) (url : String)
    (b : RequestBody) (now : Nat) (st : SysState)
    (hb : requiredFields b = none) :
    (postEvents dbReady insertOk queueUp url b now st).2 = st ∧
    (dbReady = true →
      (postEvents dbReady insertOk queueUp url b now st).1.status = 400) := by
  cases dbReady with
  | false =>
    refine ⟨by simp [postEvents], ?_⟩
    intro h
    exact Bool.noConfusion h
  | true =>
    refine ⟨by simp [postEvents, hb], ?_⟩
    intro _
    simp [postEvents, hb]

/-- C10 witness: the zero-amount body fails validation, creates nothing
and is answered 400. -/
theorem validation_rejects_witness :
    requiredFields zeroAmountBody = none ∧
    ((postEvents true true true "u" zeroAmountBody 0 sysState0).2 = sysState0 ∧
     (true = true →
       (postEvents true true true "u" zeroAmountBody 0 sysState0).1.status = 400)) :=
  ⟨by decide,
   validation_rejects true true true "u" zeroAmountBody 0 sysState0 (by decide)⟩

/-- C5: against a receiver that never succeeds, the worker makes exactly
the configured maximum number of attempts (8), after which the row is
marked failed with attempt_count 8 and last_error the captured error
description, and no further attempt occurs. -/
theorem bounded_attempts (receiver : Nat → Bool) (item : WorkItem)
    (st : Store) (errMsg : String) (now : Nat)
    (hrec : ∀ n, receiver n = false) :
    webhookQueueOpts.attempts = 8 ∧
    (deliverJob receiver item st errMsg now).1.length = 8 ∧
    (deliverJob receiver item st errMsg now).2 =
      markFailed st item.jobId 8 errMsg now ∧
    ∀ j ∈ st.rows, j.id = item.jobId →
      { j with status := JobStatus.failed, attemptCount := 8,
               lastError := some errMsg, updatedAt := now } ∈
        (deliverJob receiver item st errMsg now).2.rows := by
  have hlen := attemptLoop_fail_len receiver item errMsg now hrec 8 0 st
  have hst := attemptLoop_fail_store receiver item errMsg now hrec 8 0 st
  have hdel : (deliverJob receiver item st errMsg now).2 =
      markFailed st item.jobId 8 errMsg now := by
    unfold deliverJob
    exact hst
  refine ⟨rfl, ?_, hdel, ?_⟩
  · unfold deliverJob
    exact hlen
  · intro j hj hid
    rw [hdel]
    unfold markFailed
    have hmem := List.mem_map_of_mem (fun j =>
      if j.id = item.jobId then
        { j with status := JobStatus.failed, attemptCount := 8,
                 lastError := some errMsg, updatedAt := now }
      else j) hj
    simpa [hid] using hmem

/-- C5 witness: the original demo work item, against a receiver that never
succeeds, produces exactly 8 outbound requests and marks job 1 failed. -/
theorem bounded_attempts_witness :
    (deliverJob (fun _ => false) item1 sysState1.store "err" 7).1.length = 8 ∧
    (deliverJob (fun _ => false) item1 sysState1.store "err" 7).2 =
      markFailed sysState1.store item1.jobId 8 "err" 7 ∧
    { demoJob with status := JobStatus.failed, attemptCount := 8,
                   lastError := some "err", updatedAt := 7 } ∈
      (deliverJob (fun _ => false) item1 sysState1.store "err" 7).2.rows :=
  ⟨(bounded_attempts (fun _ => false) item1 sysState1.store "err" 7
      (fun _ => rfl)).2.1,
   (bounded_attempts (fun _ => false) item1 sysState1.store "err" 7
      (fun _ => rfl)).2.2.1,
   (bounded_attempts (fun _ => false) item1 sysState1.store "err" 7
      (fun _ => rfl)).2.2.2 demoJob (by decide) (by decide)⟩

/-- C9: no operation after creation touches payload or target_url: the two
worker updates change only status, attempt_count, last_error and
updated_at (id, merchant_id, payload, target_url, idempotency_key and
created_at are preserved row-wise), and every outbound request of a work
item resends exactly the payload and target captured in the item at
submission time. -/
theorem payload_immutability (st : Store) (jobId n now m : Nat)
    (errMsg : String) (receiver : Nat → Bool) (item : WorkItem)
    (st2 : Store) (e2 : String) (t2 : Nat) :
    ((markDelivered st jobId n now).rows.map Job.payload =
        st.rows.map Job.payload ∧
     (markDelivered st jobId n now).rows.map Job.targetUrl =
        st.rows.map Job.targetUrl ∧
     (markDelivered st jobId n now).rows.map Job.id = st.rows.map Job.id ∧
     (markDelivered st jobId n now).rows.map Job.merchantId =
        st.rows.map Job.merchantId ∧
     (markDelivered st jobId n now).rows.map Job.idempotencyKey =
        st.rows.map Job.idempotencyKey ∧
     (markDelivered st jobId n now).rows.map Job.createdAt =
        st.rows.map Job.createdAt) ∧
    ((markFailed st jobId m errMsg now).rows.map Job.payload =
        st.rows.map Job.payload ∧
     (markFailed st jobId m errMsg now).rows.map Job.targetUrl =
        st.rows.map Job.targetUrl ∧
     (markFailed st jobId m errMsg now).rows.map Job.id =
        st.rows.map Job.id ∧
     (markFailed st jobId m errMsg now).rows.map Job.merchantId =
        st.rows.map Job.merchantId ∧
     (markFailed st jobId m errMsg now).rows.map Job.idempotencyKey =
        st.rows.map Job.idempotencyKey ∧
     (markFailed st jobId m errMsg now).rows.map Job.createdAt =
        st.rows.map Job.createdAt) ∧
    (∀ r ∈ (deliverJob receiver item st2 e2 t2).1,
      r.payload = item.payload ∧ r.url = item.targetUrl) := by
  refine ⟨?_, ?_, ?_⟩
  · refine ⟨?_, ?_, ?_, ?_, ?_, ?_⟩ <;>
      (simp only [markDelivered]; apply map_update_proj; intro a;
       by_cases ha : a.id = jobId <;> simp [ha])
  · refine ⟨?_, ?_, ?_, ?_, ?_, ?_⟩ <;>
      (simp only [markFailed]; apply map_update_proj; intro a;
       by_cases ha : a.id = jobId <;> simp [ha])
  · intro r hr
    unfold deliverJob at hr
    exact attemptLoop_req_fields receiver item e2 t2
      webhookQueueOpts.attempts 0 st2 r hr

/-- C9 witness: a concrete update preserves the payload column, and the
first outbound request of the demo item carries exactly the item payload
and target. -/
theorem payload_immutability_witness :
    ((markDelivered sysState1.store 1 4 9).rows.map Job.payload =
      sysState1.store.rows.map Job.payload) ∧
    ((mkReq item1 1).payload = item1.payload ∧
     (mkReq item1 1).url = item1.targetUrl) :=
  ⟨(payload_immutability sysState1.store 1 4 9 3 "err" (fun _ => false) item1
      sysState1.store "err" 7).1.1,
   (payload_immutability sysState1.store 1 4 9 3 "err" (fun _ => false) item1
      sysState1.store "err" 7).2.2 (mkReq item1 1) (by decide)⟩

/-- C1: two submissions carrying the same idempotency key txn-transactionId
create at most one row: the first returns 202 with the id of a fresh
pending row, the second is answered 409 and leaves the whole state, in
particular the original row, unchanged. -/
theorem idempotent_submission (b : RequestBody) (p : Payload) (st : SysState)
    (url : String) (q1 q2 : Bool) (now1 now2 : Nat)
    (hf : requiredFields b = some p)
    (hfresh : st.store.rows.any
      (fun j => j.idempotencyKey = "txn-" ++ p.transactionId.toText) = false) :
    (postEvents true true q1 url b now1 st).1.status = 202 ∧
    (postEvents true true q1 url b now1 st).1.jobId = some st.store.nextId ∧
    (postEvents true true q1 url b now1 st).2.store.rows =
      st.store.rows ++ [newJobRow st.store p url now1] ∧
    (postEvents true true q2 url b now2
        (postEvents true true q1 url b now1 st).2).1.status = 409 ∧
    (postEvents true true q2 url b now2
        (postEvents true true q1 url b now1 st).2).2 =
      (postEvents true true q1 url b now1 st).2 := by
  have h1 : postEvents true true q1 url b now1 st =
      ({ status := 202, jobId := some st.store.nextId },
       { store := { rows := st.store.rows ++ [newJobRow st.store p url now1],
                    nextId := st.store.nextId + 1 },
         queue := if q1 then st.queue.addAuto st.store.nextId p url
                  else st.queue }) := by
    simp [postEvents, hf, insertJob, hfresh, newJobRow]
  refine ⟨?_, ?_, ?_, ?_, ?_⟩
  · rw [h1]
  · rw [h1]
  · rw [h1]
  · rw [h1]
    simp [postEvents, hf, insertJob, hfresh, newJobRow, List.any_append]
  · rw [h1]
    simp [postEvents, hf, insertJob, hfresh, newJobRow, List.any_append]

/-- C1 witness: the demo body submitted twice against the fresh state gets
202 then 409. -/
theorem idempotent_submission_witness :
    (postEvents true true true "u" demoBody 0 sysState0).1.status = 202 ∧
    (postEvents true true true "u" demoBody 1
        (postEvents true true true "u" demoBody 0 sysState0).2).1.status = 409 :=
  ⟨(idempotent_submission demoBody demoPayload sysState0 "u" true true 0 1
      (by decide) (by decide)).1,
   (idempotent_submission demoBody demoPayload sysState0 "u" true true 0 1
      (by decide) (by decide)).2.2.2.1⟩

/-- C2 counterexample: a failed row does change status again. The demo
trace is fully reachable: the submission enqueues the original work item,
the reconciler (run while job 1 is still pending) adds a second work item
for the same row, the original item exhausts its attempts and the failed
handler marks job 1 failed, and then the success handler run for the
recovery item overwrites job 1 to delivered. -/
theorem terminal_status_overwritten_cex :
    item1 ∈ sysState2.queue.items ∧
    itemR ∈ sysState2.queue.items ∧
    (storeFailed.rows.find? (fun j => j.id = 1)).map Job.status =
      some JobStatus.failed ∧
    (storeFinal.rows.find? (fun j => j.id = 1)).map Job.status =
      some JobStatus.delivered := by
  decide

/-- C2 amended: every created row has initial status pending, and no
operation ever maps a row back to pending: a row that is pending after
markDelivered or markFailed was already present unchanged. The claim that
delivered and failed are never left does not hold, because the two status
updates are unconditional: when two in-flight work items exist for one
job, which the reconciler can produce, a failed row is overwritten to
delivered (see the counterexample). -/
theorem job_status_transitions (st : Store) (p : Payload) (url key : String)
    (now jobId n m : Nat) (errMsg : String) :
    (∀ idA st', insertJob st p url key now = some (idA, st') →
      st'.rows.map Job.status = st.rows.map Job.status ++ [JobStatus.pending]) ∧
    (∀ j ∈ (markDelivered st jobId n now).rows,
      j.status = JobStatus.pending → j ∈ st.rows) ∧
    (∀ j ∈ (markFailed st jobId m errMsg now).rows,
      j.status = JobStatus.pending → j ∈ st.rows) := by
  refine ⟨?_, ?_, ?_⟩
  · intro idA st' h
    unfold insertJob at h
    by_cases hc : st.rows.any (fun j => j.idempotencyKey = key) = true
    · rw [if_pos hc] at h
      cases h
    · rw [if_neg hc] at h
      injection h with h
      injection h with h1 h2
      subst h2
      simp
  · intro j hj hs
    simp only [markDelivered, List.mem_map] at hj
    obtain ⟨a, ha, rfl⟩ := hj
    by_cases hid : a.id = jobId
    · simp [hid] at hs
    · simpa [hid] using ha
  · intro j hj hs
    simp only [markFailed, List.mem_map] at hj
    obtain ⟨a, ha, rfl⟩ := hj
    by_cases hid : a.id = jobId
    · simp [hid] at hs
    · simpa [hid] using ha

/-- C2 amended witness: the demo insert appends a pending status, and a row
left pending by an update of another job id was present before. -/
theorem job_status_transitions_witness :
    sysState1.store.rows.map Job.status =
      sysState0.store.rows.map Job.status ++ [JobStatus.pending] ∧
    demoJob ∈ sysState1.store.rows :=
  ⟨(job_status_transitions sysState0.store demoPayload "u" "txn-t1" 0 1 1 1
      "e").1 1 sysState1.store (by decide),
   (job_status_transitions sysState1.store demoPayload "u" "k" 9 2 1 1
      "e").2.1 demoJob (by decide) (by decide)⟩

/-- C3 counterexample: after the reconciler runs on the demo state, the
still-pending job 1 has two in-flight work items, because the original
submission-path enqueue carries no dedupe key that the recovery-1 add
could match. -/
theorem duplicate_inflight_after_recovery_cex :
    (sysState2.store.rows.find? (fun j => j.id = 1)).map Job.status =
      some JobStatus.pending ∧
    (sysState2.queue.items.filter (fun i => i.jobId = 1)).length = 2 := by
  decide

/-- C3 amended: the reconciler does use the dedupe key recovery-jobId, so
after a run every pending row has an item under that key and a repeated
reconciler run is absorbed as a no-op; but the original submission-path
enqueue uses no dedupe key, so the re-submission of a pending job whose
original work item is merely slow is not absorbed, and such a job can have
two in-flight work items after a reconciler run (see the counterexample). -/
theorem recovery_dedupe (st : Store) (q : Queue) :
    (∀ j ∈ st.rows, j.status = JobStatus.pending →
      (recoverPendingJobs st q).hasQueueId
        ("recovery-" ++ toString j.id) = true) ∧
    recoverPendingJobs st (recoverPendingJobs st q) =
      recoverPendingJobs st q := by
  constructor
  · intro j hj hp
    unfold recoverPendingJobs
    apply hasQueueId_foldl_all
    simp [List.mem_filter, hj, hp]
  · unfold recoverPendingJobs
    apply foldl_recoverStep_fixed
    intro j hj
    exact hasQueueId_foldl_all _ q j hj

/-- C3 amended witness: job 1 gets its recovery-1 item and re-running the
reconciler on the demo state changes nothing. -/
theorem recovery_dedupe_witness :
    (recoverPendingJobs sysState1.store sysState1.queue).hasQueueId
      ("recovery-" ++ toString demoJob.id) = true ∧
    recoverPendingJobs sysState1.store
        (recoverPendingJobs sysState1.store sysState1.queue) =
      recoverPendingJobs sysState1.store sysState1.queue :=
  ⟨(recovery_dedupe sysState1.store sysState1.queue).1 demoJob (by decide)
      (by decide),
   (recovery_dedupe sysState1.store sysState1.queue).2⟩

/-- C4 counterexample: with the dispatch queue unreachable, the valid demo
submission still receives the 202 accepted response: the enqueue failure
is caught and only logged, the row is kept and no work item exists. This
contradicts the claim that a submission during which the queue is
unreachable does not report success to the caller. -/
theorem queue_outage_accepted_cex :
    (postEvents true true false "u" demoBody 0 sysState0).1.status = 202 ∧
    (postEvents true true false "u" demoBody 0 sysState0).2.queue.items = [] ∧
    (postEvents true true false "u" demoBody 0 sysState0).2.store.rows.length
      = 1 := by
  decide

/-- C4 amended: job-store unavailability is surfaced synchronously (503
when the database is not ready, 500 when the insert query fails), but
dispatch queue unavailability on submission is caught and logged: the
caller still receives 202 with the row created and the queue untouched,
leaving recovery to the reconciler. -/
theorem submission_infra_errors (b : RequestBody) (p : Payload)
    (st : SysState) (url : String) (iOk qUp : Bool) (now : Nat)
    (hf : requiredFields b = some p)
    (hfresh : st.store.rows.any
      (fun j => j.idempotencyKey = "txn-" ++ p.transactionId.toText) = false) :
    postEvents false iOk qUp url b now st =
      ({ status := 503, jobId := none }, st) ∧
    postEvents true false qUp url b now st =
      ({ status := 500, jobId := none }, st) ∧
    (postEvents true true false url b now st).1.status = 202 ∧
    (postEvents true true false url b now st).2.queue = st.queue ∧
    (postEvents true true false url b now st).2.store.rows =
      st.store.rows ++ [newJobRow st.store p url now] := by
  refine ⟨?_, ?_, ?_, ?_, ?_⟩
  · simp [postEvents]
  · simp [postEvents, hf]
  · simp [postEvents, hf, insertJob, hfresh]
  · simp [postEvents, hf, insertJob, hfresh]
  · simp [postEvents, hf, insertJob, hfresh, newJobRow]

/-- C4 amended witness: concrete database-down and queue-down submissions. -/
theorem submission_infra_errors_witness :
    postEvents false true true "u" demoBody 0 sysState0 =
      ({ status := 503, jobId := none }, sysState0) ∧
    (postEvents true true false "u" demoBody 0 sysState0).1.status = 202 :=
  ⟨(submission_infra_errors demoBody demoPayload sysState0 "u" true true 0
      (by decide) (by decide)).1,
   (submission_infra_errors demoBody demoPayload sysState0 "u" true true 0
      (by decide) (by decide)).2.2.1⟩

/-- C8: the routes are registered with /status/:jobId before /status/all,
so a GET of /status/all is captured by the :jobId route with the parameter
bound to the text all; that text fails to parse for the integer id column,
the query raises, and the response is the 500 error rather than the
grouped summary. The shadowed summary handler itself does compute the
count, average attempts and maximum attempts per status (second
conjunct), which is what the repository README documents for this
endpoint. -/
theorem statusAll_route_shadowed :
    handleGet demoStore ["status", "all"] = GetResult.queryError ∧
    statusAllHandler demoStore = GetResult.summary
      [{ status := JobStatus.delivered, count := 2, avgAttempts := 2,
         maxAttempts := 3 },
       { status := JobStatus.pending, count := 1, avgAttempts := 0,
         maxAttempts := 0 }] := by
  constructor
  · decide
  · show GetResult.summary (statusSummary demoStore) = _
    have hrows : statusSummary demoStore =
        [{ status := JobStatus.delivered, count := 2, avgAttempts := (4 : ℚ) / 2,
           maxAttempts := 3 },
         { status := JobStatus.pending, count := 1, avgAttempts := (0 : ℚ) / 1,
           maxAttempts := 0 }] := by
      simp [statusSummary, distinctStatuses, demoStore, List.filter]
      norm_num
    rw [hrows]
    norm_num
